import Mathlib

/-
A shallow embedding of src/jsonschema_sanitizer.py (class JSONSchemaSanitizer),
a Python 2 module that coerces loosely typed input data against a JSON-Schema
style contract and gates the result behind an external schema validator.

Modelling conventions:
* Python values (the dynamically typed payloads and the schema document) are
  embedded as the inductive type JValue.  Python None is JValue.null; the
  source uses None both for the value null and for an absent result, so no
  separate absence marker exists, exactly as in the source.
* Python dictionaries are association lists with String keys, iterated in
  list order (a Python dict iterates in some fixed order; all universally
  quantified theorems hold for every order).  Well formed dicts have unique
  keys; helper operations are chosen to agree with Python on such dicts.
* Raised exceptions are modelled with Except PyExc.  Each formatter returns
  Except PyExc JValue; an uncaught Python exception is Except.error.
* Mutation: format_object executes del object[the type key] on the caller
  object.  Every composite formatter therefore returns a pair
  (result, final state of its input value); scalar formatters never mutate.
  On an exception the partially mutated state is not reported, since no
  claim inspects input state on the error path.
* The mutual recursion format_object -> dispatch -> format_object is not
  structurally decreasing in Lean, so the mutual block carries a fuel
  parameter; PyExc.outOfFuel is an artifact of the embedding and is
  unreachable for every sufficiently large fuel.  The source recursion
  terminates because either the value or the schema node shrinks.
* External collaborators (the jsonschema validator, the dateutil/rfc3339
  date-time parser, the logging sink) are parameters, as section 1 of the
  spec prescribes: the validator is a Bool valued function argument, the
  date-time parser is a function field, and the failure log is the list of
  records returned by sanitize_properties.
-/

/-- JValue embeds the dynamically typed Python values handled by the
sanitizer: None, bool, int, float (modelled exactly as a rational, which is
faithful for the decimal literals the claims exercise), str (Python 2 str
and unicode are not distinguished), list, and dict with string keys. -/
inductive JValue where
  | null : JValue
  | bool : Bool → JValue
  | int : Int → JValue
  | float : Rat → JValue
  | str : String → JValue
  | list : List JValue → JValue
  | dict : List (String × JValue) → JValue

/-- Python exceptions that the source can raise: TypeError (calling a non
function, int()/float() on None or containers, indexing None), KeyError
(missing dict key on indexing), AttributeError (calling .get or .split on a
value that lacks it), ValueError (unparseable literals; always caught in the
source).  outOfFuel is the embedding artifact for exhausted fuel. -/
inductive PyExc where
  | typeError : PyExc
  | keyError : String → PyExc
  | attributeError : PyExc
  | valueError : PyExc
  | outOfFuel : PyExc
deriving DecidableEq

/-- Python truthiness: None, False, 0, 0.0, empty string, empty list and
empty dict are falsy, everything else truthy. -/
def truthy : JValue → Bool
  | .null => false
  | .bool b => b
  | .int n => n != 0
  | .float q => decide (q ≠ 0)
  | .str s => s ≠ ""
  | .list xs => !xs.isEmpty
  | .dict kvs => !kvs.isEmpty

/-- Models the Python test x is None. -/
def isNull : JValue → Bool
  | .null => true
  | _ => false

/-- First binding of a key in an association list dict. -/
def lookupKey (kvs : List (String × JValue)) (k : String) : Option JValue :=
  (kvs.find? (fun p => p.1 == k)).map (fun p => p.2)

/-- Models del d[k] on a dict with unique keys (removes every binding of k,
which coincides with Python on well formed dicts). -/
def eraseKey (kvs : List (String × JValue)) (k : String) : List (String × JValue) :=
  kvs.filter (fun p => p.1 != k)

/-- Models the Python call v.get(k) (default None): returns the binding or
None on a dict, raises AttributeError when v has no get method. -/
def dictGet (v : JValue) (k : String) : Except PyExc JValue :=
  match v with
  | .dict kvs => .ok ((lookupKey kvs k).getD .null)
  | _ => .error .attributeError

/-- Models the Python call v.get(k, d) with an explicit default. -/
def dictGetD (v : JValue) (k : String) (d : JValue) : Except PyExc JValue :=
  match v with
  | .dict kvs => .ok ((lookupKey kvs k).getD d)
  | _ => .error .attributeError

/-- Models Python indexing v[k] with a string key: KeyError when the key is
missing from a dict, TypeError when v is not a dict (indexing None, a list
or a scalar with a string raises TypeError). -/
def dictIndex (v : JValue) (k : String) : Except PyExc JValue :=
  match v with
  | .dict kvs =>
      match lookupKey kvs k with
      | some x => .ok x
      | none => .error (.keyError k)
  | _ => .error .typeError

/-- Python int value of a bool (True == 1, False == 0). -/
def boolInt (b : Bool) : Int := if b then 1 else 0

mutual

/-- Python equality (the == operator) on embedded values, defined mutually
with its list and dict pair versions so that the recursion is structural and
reduces inside the kernel.  Crucially, bool is a subclass of int in Python,
so True == 1, False == 0, True == 1.0 and False == 0.0 all hold; this is
what the boolean formatter and enum checks observe.  Containers compare
elementwise.  Caveat: Python dict equality is order insensitive; this
embedding compares dict literals in order, which agrees with Python on all
scalar comparisons the claims exercise. -/
def pyEq : JValue → JValue → Bool
  | .null, .null => true
  | .bool x, .bool y => x == y
  | .bool x, .int n => boolInt x == n
  | .int n, .bool x => n == boolInt x
  | .bool x, .float q => decide ((boolInt x : Rat) = q)
  | .float q, .bool x => decide (q = (boolInt x : Rat))
  | .int n, .int m => n == m
  | .int n, .float q => decide ((n : Rat) = q)
  | .float q, .int n => decide (q = (n : Rat))
  | .float x, .float y => decide (x = y)
  | .str x, .str y => x == y
  | .list xs, .list ys => pyEqList xs ys
  | .dict xs, .dict ys => pyEqPairs xs ys
  | _, _ => false

/-- Elementwise Python == on lists. -/
def pyEqList : List JValue → List JValue → Bool
  | [], [] => true
  | x :: xs, y :: ys => pyEq x y && pyEqList xs ys
  | _, _ => false

/-- Elementwise Python == on dict bindings. -/
def pyEqPairs : List (String × JValue) → List (String × JValue) → Bool
  | [], [] => true
  | (k, v) :: xs, (k2, v2) :: ys => k == k2 && pyEq v v2 && pyEqPairs xs ys
  | _, _ => false

end

/-- ASCII lowercasing of one character, modelling Python 2 str.lower on the
ASCII inputs the source handles. -/
def charLower (c : Char) : Char :=
  if 65 ≤ c.toNat && c.toNat ≤ 90 then Char.ofNat (c.toNat + 32) else c

/-- Python str.lower. -/
def strLower (s : String) : String := ⟨s.data.map charLower⟩

/-- The whitespace set stripped by Python str.strip. -/
def isSpaceChar (c : Char) : Bool :=
  c == ' ' || c == '\t' || c == '\n' || c == '\r' || c == '\x0b' || c == '\x0c'

/-- Decimal digit test on a character. -/
def isDigitChar (c : Char) : Bool := 48 ≤ c.toNat && c.toNat ≤ 57

/-- Python str.strip on a character list. -/
def stripChars (cs : List Char) : List Char :=
  ((cs.dropWhile isSpaceChar).reverse.dropWhile isSpaceChar).reverse

/-- Prefix test on character lists. -/
def isPrefixChars : List Char → List Char → Bool
  | [], _ => true
  | _ :: _, [] => false
  | a :: as, b :: bs => a == b && isPrefixChars as bs

/-- Substring test on character lists. -/
def containsSub (needle : List Char) : List Char → Bool
  | [] => needle.isEmpty
  | c :: rest => isPrefixChars needle (c :: rest) || containsSub needle rest

/-- Substring test, modelling the Python expression needle in hay for
strings. -/
def strContains (hay needle : String) : Bool :=
  containsSub needle.data hay.data

/-- Python str.split(sep) on a character list (no collapsing of empty
fields, exactly like Python split with an explicit separator). -/
def splitChar (sep : Char) : List Char → List (List Char)
  | [] => [[]]
  | c :: rest =>
      match splitChar sep rest with
      | [] => [[c]]
      | h :: t => if c == sep then [] :: h :: t else (c :: h) :: t

/-- Source method _enum_check (lines 324..328): value in enum_mapping.
Membership in a list is elementwise ==; membership in a dict tests keys;
membership in a string is a substring test for string needles and TypeError
otherwise; in on a non container raises TypeError. -/
def enum_check (v : JValue) (enum_mapping : JValue) : Except PyExc Bool :=
  match enum_mapping with
  | .list items => .ok (items.any (fun e => pyEq v e))
  | .dict kvs => .ok (kvs.any (fun p => pyEq v (.str p.1)))
  | .str s =>
      match v with
      | .str t => .ok (strContains s t)
      | _ => .error .typeError
  | _ => .error .typeError

/-- Numeric value of a digit list (most significant first). -/
def digitsVal (cs : List Char) : Nat :=
  cs.foldl (fun a c => a * 10 + (c.toNat - 48)) 0

/-- Models Python 2 int(s) on a str: strip whitespace, optional sign, then a
nonempty run of decimal digits; anything else raises ValueError (captured
here as none). -/
def pyParseInt (s : String) : Option Int :=
  let core : List Char → Option Nat := fun ds =>
    if ds.isEmpty then none
    else if ds.all isDigitChar then some (digitsVal ds)
    else none
  match stripChars s.data with
  | '-' :: rest => (core rest).map (fun n => -(n : Int))
  | '+' :: rest => (core rest).map (fun n => (n : Int))
  | t => (core t).map (fun n => (n : Int))

/-- Models Python float(s) on a str: strip whitespace, optional sign, digits
with an optional fractional part (at least one digit overall), optional
decimal exponent.  The rational is assembled with mkRat from integer
mantissa and a power of ten denominator.  Caveat: the source also accepts
the non finite literals inf and nan, which have no rational embedding; no
claim exercises them. -/
def pyParseFloat (s : String) : Option Rat :=
  let t := stripChars s.data
  let sign : Int := match t with | '-' :: _ => -1 | _ => 1
  let t1 : List Char := match t with | '-' :: r => r | '+' :: r => r | t0 => t0
  let ip := t1.takeWhile isDigitChar
  let r1 := t1.dropWhile isDigitChar
  let fp : List Char := match r1 with | '.' :: r => r.takeWhile isDigitChar | _ => []
  let r2 : List Char := match r1 with | '.' :: r => r.dropWhile isDigitChar | r => r
  if ip.isEmpty && fp.isEmpty then none
  else
    let mant : Int := sign * (digitsVal (ip ++ fp) : Int)
    let scale : Nat := 10 ^ fp.length
    match r2 with
    | [] => some (mkRat mant scale)
    | e :: r3 =>
        if e == 'e' || e == 'E' then
          let eneg : Bool := match r3 with | '-' :: _ => true | _ => false
          let r4 : List Char := match r3 with | '-' :: r => r | '+' :: r => r | r0 => r0
          if r4.isEmpty then none
          else if r4.all isDigitChar then
            if eneg then some (mkRat mant (scale * 10 ^ digitsVal r4))
            else some (mkRat (mant * (10 ^ digitsVal r4 : Nat)) scale)
          else none
        else none

/-- Python int() truncates a float toward zero. -/
def ratTrunc (q : Rat) : Int := Int.tdiv q.num q.den

/-- Rendering used by unicode(value) for floats.  Caveat: Python renders a
float in decimal notation; this embedding renders the rational as a
fraction.  No claim depends on the rendered text of a float. -/
def ratStr (q : Rat) : String :=
  if q.den == 1 then toString q.num ++ ".0"
  else toString q.num ++ "/" ++ toString q.den

/-- Models unicode(value), the default string formatter of the source
(format_default, line 243).  On a str it is the identity; other scalars
render as their Python text.  Caveat: the repr of containers is abbreviated;
no claim exercises it. -/
def pyStr : JValue → String
  | .str s => s
  | .null => "None"
  | .bool b => if b then "True" else "False"
  | .int n => toString n
  | .float q => ratStr q
  | .list _ => "[...]"
  | .dict _ => "\x7b...\x7d"

/-- Source method format_bool (lines 110..123).  A str is lowercased first;
then membership (Python ==, hence pyEq) is tested against
[f, false, False] and [t, true, True]; no match falls off the end and
returns None.  format_bool can never raise, which the return type records. -/
def format_bool (value : JValue) : JValue :=
  let v : JValue := match value with | .str s => .str (strLower s) | w => w
  if [JValue.str "f", JValue.str "false", JValue.bool false].any (fun e => pyEq v e) then
    .bool false
  else if [JValue.str "t", JValue.str "true", JValue.bool true].any (fun e => pyEq v e) then
    .bool true
  else .null

/-- Source method format_int (lines 125..133): int(value), catching only
ValueError (unparseable str), which prints a message and returns None.
int() on None, a list or a dict raises TypeError, which is NOT caught and
escapes; int() truncates a float toward zero and maps bools to 0/1. -/
def format_int (value : JValue) : Except PyExc JValue :=
  match value with
  | .int n => .ok (.int n)
  | .float q => .ok (.int (ratTrunc q))
  | .bool b => .ok (.int (boolInt b))
  | .str s =>
      match pyParseInt s with
      | some n => .ok (.int n)
      | none => .ok .null
  | _ => .error .typeError

/-- Source method format_number (lines 136..144): float(value) with the same
ValueError-only handling as format_int. -/
def format_number (value : JValue) : Except PyExc JValue :=
  match value with
  | .int n => .ok (.float n)
  | .float q => .ok (.float q)
  | .bool b => .ok (.float (boolInt b))
  | .str s =>
      match pyParseFloat s with
      | some q => .ok (.float q)
      | none => .ok .null
  | _ => .error .typeError

/-- Source method format_null (lines 146..150): always returns None. -/
def format_null (_value : JValue) : JValue := .null

/-- Source method format_default (lines 243..249): unicode(value). -/
def format_default (value : JValue) : JValue := .str (pyStr value)

/-- The sanitizer state: the schema document, the non primitive type store
built by the constructor, and the external date-time collaborator (the
dateutil parser and rfc3339 emitter used by format_date_time, which the spec
excludes as an external format parser). -/
structure JSONSchemaSanitizer where
  schema : JValue
  non_primitive_types : List (JValue × JValue)
  date_time : JValue → Except PyExc JValue

/-- Source method format_string (lines 203..219): looks up the format key of
the property schema in the string_formats table, falling back to the default
formatter.  The email, hostname, ipv4, ipv6, reg-ex and uri entries are pass
stubs in the source and return None.  A container valued format key is
unhashable in Python, so the table lookup raises TypeError. -/
def format_string (ctx : JSONSchemaSanitizer) (value : JValue) (schema_property_object : JValue) :
    Except PyExc JValue :=
  match dictGetD schema_property_object "format" .null with
  | .error e => .error e
  | .ok fmt =>
      match fmt with
      | .str s =>
          if s == "date-time" then ctx.date_time value
          else if s == "default" then .ok (format_default value)
          else if s == "email" then .ok .null
          else if s == "hostname" then .ok .null
          else if s == "ipv4" then .ok .null
          else if s == "ipv6" then .ok .null
          else if s == "reg-ex" then .ok .null
          else if s == "uri" then .ok .null
          else .ok (format_default value)
      | .list _ => .error .typeError
      | .dict _ => .error .typeError
      | _ => .ok (format_default value)

/-- Source method get_value_from_json_pointer_path (lines 312..318): drops
the leading # segment when the path has more than one segment, then chains
value = value.get(key); a .get on a non dict (for instance None after a
missed lookup) raises AttributeError. -/
def get_value_from_json_pointer_path (schema : JValue) (path : List String) :
    Except PyExc JValue :=
  let path := if path.length > 1 then path.drop 1 else path
  path.foldlM (fun v k => dictGet v k) schema

/-- Source method get_reference_value (lines 304..309): splits the path on /
and resolves it only when the first segment contains a # character;
otherwise it silently returns None.  A non string path has no split method
and raises AttributeError. -/
def get_reference_value (schema : JValue) (path : JValue) : Except PyExc JValue :=
  match path with
  | .str p =>
      let path_split := (splitChar '/' p.data).map (fun cs => (⟨cs⟩ : String))
      if path_split.length < 1 then .ok .null
      else if ((path_split.headD "").data.any (fun c => c == '#')) then
        get_value_from_json_pointer_path schema path_split
      else .ok .null
  | _ => .error .attributeError

/-- Python dict assignment x[item] = node: replace the value when an ==
equal key exists, else append the new binding. -/
def storeInsert (store : List (JValue × JValue)) (k v : JValue) : List (JValue × JValue) :=
  if store.any (fun p => pyEq p.1 k) then
    store.map (fun p => if pyEq p.1 k then (p.1, v) else p)
  else store ++ [(k, v)]

/-- Python dict .get(key, None) on the non primitive type store. -/
def registryGet (store : List (JValue × JValue)) (k : JValue) : Option JValue :=
  (store.find? (fun p => pyEq p.1 k)).map (fun p => p.2)

/-- Source method _create_non_primitive_types_store (lines 38..47): for each
definition, reads properties.type.enum and maps every enum item to the
resolved definition node.  Caveat: iterating a nonempty non dict definitions
value or a non list enum is approximated by TypeError (Python would iterate
the keys of a dict or the characters of a str); well formed schemas never
reach these corners. -/
def create_non_primitive_types_store (schema : JValue) :
    Except PyExc (List (JValue × JValue)) :=
  match dictGetD schema "definitions" (.list []) with
  | .error e => .error e
  | .ok defs =>
      match defs with
      | .list [] => .ok []
      | .dict entries =>
          entries.foldlM (fun acc entry =>
            match dictGetD entry.2 "properties" (.dict []) with
            | .error e => .error e
            | .ok props =>
                match dictGetD props "type" (.dict []) with
                | .error e => .error e
                | .ok tySch =>
                    match dictGetD tySch "enum" (.list []) with
                    | .error e => .error e
                    | .ok enumv =>
                        match enumv with
                        | .list items =>
                            items.foldlM (fun acc2 item =>
                              match get_reference_value schema
                                  (.str ("#/definitions/" ++ entry.1)) with
                              | .error e => .error e
                              | .ok node => .ok (storeInsert acc2 item node)) acc
                        | _ => .error .typeError) []
      | _ => .error .typeError

/-- Models sanitized_object.get(key, None) in the required loop (line 198);
required keys are JValues, and a non string key never matches a string keyed
dict. -/
def requiredLookup (acc : List (String × JValue)) (key : JValue) : JValue :=
  match key with
  | .str k => (lookupKey acc k).getD .null
  | _ => .null

/-- Source lines 197..200: for each required key, if its binding in the
output is falsy, rebind the output to the empty dict and keep looping. -/
def checkRequired (keys : List JValue) (acc : List (String × JValue)) :
    List (String × JValue) :=
  match keys with
  | [] => acc
  | key :: rest =>
      if truthy (requiredLookup acc key) then checkRequired rest acc
      else checkRequired rest []

/-- Source lines 191..201, the tail of format_object: if the built output is
truthy, re-attach the discriminant, then run the required check and return
the (possibly emptied) dict; a falsy output falls off the function and
yields None.  A truthy non list required value is approximated by TypeError
(Python would iterate it); well formed schemas use lists. -/
def format_object_finish (definition_type spo : JValue) (acc : List (String × JValue)) :
    Except PyExc JValue :=
  if acc.isEmpty then .ok .null
  else
    let acc1 := if truthy definition_type then acc ++ [("type", definition_type)] else acc
    match dictGet spo "required" with
    | .error e => .error e
    | .ok reqv =>
        if truthy reqv then
          match reqv with
          | .list keys => .ok (.dict (checkRequired keys acc1))
          | _ => .error .typeError
        else .ok (.dict acc1)

/-- Source lines 169..189, the per property loop of format_object,
abstracted over the primitive dispatcher disp (type name, dirty value,
property schema).  Returns the built output pairs and the final state of the
iterated pairs.  An enum violation breaks out of the loop, leaving the
remaining properties unprocessed; an enum pass copies the dirty value
through; otherwise the property is dispatched and kept only when the
coerced value is truthy. -/
def format_object_loop (schema : JValue)
    (disp : JValue → JValue → JValue → Except PyExc (JValue × JValue))
    (spo : JValue) :
    List (String × JValue) → List (String × JValue) →
    Except PyExc (List (String × JValue) × List (String × JValue))
  | [], acc => .ok (acc, [])
  | (k, v) :: rest, acc =>
      match dictIndex spo "properties" with
      | .error e => .error e
      | .ok props =>
          match dictIndex props k with
          | .error e => .error e
          | .ok spo0 =>
              match dictGetD spo0 "$ref" .null with
              | .error e => .error e
              | .ok refv =>
                  match (if truthy refv then get_reference_value schema refv else .ok spo0 :
                      Except PyExc JValue) with
                  | .error e => .error e
                  | .ok spoK =>
                      match dictGetD spoK "enum" .null with
                      | .error e => .error e
                      | .ok enumv =>
                          if truthy enumv then
                            match enum_check v enumv with
                            | .error e => .error e
                            | .ok hit =>
                                if hit then
                                  match format_object_loop schema disp spo rest (acc ++ [(k, v)]) with
                                  | .error e => .error e
                                  | .ok (acc2, rest2) => .ok (acc2, (k, v) :: rest2)
                                else .ok (acc, (k, v) :: rest)
                          else
                            match dictIndex spoK "type" with
                            | .error e => .error e
                            | .ok ty =>
                                match disp ty v spoK with
                                | .error e => .error e
                                | .ok (sv, v2) =>
                                    match format_object_loop schema disp spo rest
                                        (if truthy sv then acc ++ [(k, sv)] else acc) with
                                    | .error e => .error e
                                    | .ok (acc2, rest2) => .ok (acc2, (k, v2) :: rest2)

/-- The list comprehension of _format_value_type_list (line 108), abstracted
over the dispatcher applied to each element; also returns the final states
of the elements. -/
def map_primitive (disp : JValue → Except PyExc (JValue × JValue)) :
    List JValue → Except PyExc (List JValue × List JValue)
  | [] => .ok ([], [])
  | x :: rest =>
      match disp x with
      | .error e => .error e
      | .ok (r, x2) =>
          match map_primitive disp rest with
          | .error e => .error e
          | .ok (rs, rest2) => .ok (r :: rs, x2 :: rest2)

/-- Source method _one_of (lines 292..298), abstracted over
format_object applied with schema_property_object None: keeps the cleaned
elements that are truthy, dropping failures. -/
def one_of (fmt : JValue → Except PyExc (JValue × JValue)) :
    List JValue → Except PyExc (List JValue × List JValue)
  | [] => .ok ([], [])
  | item :: rest =>
      match fmt item with
      | .error e => .error e
      | .ok (cleaned, item2) =>
          match one_of fmt rest with
          | .error e => .error e
          | .ok (built, rest2) =>
              .ok ((if truthy cleaned then cleaned :: built else built), item2 :: rest2)

/-- Source method _format_value_type_list (lines 99..108), abstracted over
the recursive collaborators: oneOf filtering, identity passthrough when the
item type is None, else elementwise dispatch.  The unused
schema_property_object parameter mirrors the source signature. -/
def format_value_type_list (fmtObjNone : JValue → Except PyExc (JValue × JValue))
    (disp : JValue → JValue → JValue → Except PyExc (JValue × JValue))
    (xs : List JValue) (_schema_property_object items array_item_type : JValue) :
    Except PyExc (JValue × JValue) :=
  match dictGetD items "oneOf" .null with
  | .error e => .error e
  | .ok oneOfv =>
      if truthy oneOfv then
        match one_of fmtObjNone xs with
        | .error e => .error e
        | .ok (built, finals) => .ok (.list built, .list finals)
      else if isNull array_item_type then .ok (.list xs, .list xs)
      else
        match map_primitive (fun x => disp array_item_type x items) xs with
        | .error e => .error e
        | .ok (rs, finals) => .ok (.list rs, .list finals)

mutual

/-- Source method format_object (lines 153..201).  Looks up the type
discriminant with object.get; a truthy discriminant is resolved through the
non primitive type store (a miss, or a stored None, returns None with the
input untouched), and the discriminant key is then DELETED from the caller
object itself before the per property loop runs; the discriminant is
restored only on the freshly built output.  The second component of the
result is the final state of the input object.  A non dict object has no
get method, so the very first step raises AttributeError. -/
def format_object (ctx : JSONSchemaSanitizer) (fuel : Nat)
    (object schema_property_object : JValue) : Except PyExc (JValue × JValue) :=
  match fuel with
  | 0 => .error .outOfFuel
  | fuel + 1 =>
      match object with
      | .dict kvs =>
          let definition_type := (lookupKey kvs "type").getD .null
          if truthy definition_type then
            match registryGet ctx.non_primitive_types definition_type with
            | none => .ok (.null, object)
            | some node =>
                if isNull node then .ok (.null, object)
                else
                  match format_object_loop ctx.schema
                      (fun ty v s => call_primitive_type ctx fuel ty v s) node
                      (eraseKey kvs "type") [] with
                  | .error e => .error e
                  | .ok (acc, work2) =>
                      match format_object_finish definition_type node acc with
                      | .error e => .error e
                      | .ok r => .ok (r, .dict work2)
          else
            match format_object_loop ctx.schema
                (fun ty v s => call_primitive_type ctx fuel ty v s)
                schema_property_object kvs [] with
            | .error e => .error e
            | .ok (acc, work2) =>
                match format_object_finish definition_type schema_property_object acc with
                | .error e => .error e
                | .ok r => .ok (r, .dict work2)
      | _ => .error .attributeError

/-- Source method format_array (lines 83..97).  items and the item type are
read from the property schema before branching; a list input goes through
_format_value_type_list; a scalar with a known item type is coerced once and
wrapped in a singleton list; otherwise the raw scalar is wrapped. -/
def format_array (ctx : JSONSchemaSanitizer) (fuel : Nat)
    (value schema_property_object : JValue) : Except PyExc (JValue × JValue) :=
  match fuel with
  | 0 => .error .outOfFuel
  | fuel + 1 =>
      match dictGetD schema_property_object "items" (.dict []) with
      | .error e => .error e
      | .ok items =>
          match dictGetD items "type" .null with
          | .error e => .error e
          | .ok array_item_type =>
              match value with
              | .list xs =>
                  format_value_type_list
                    (fun item => format_object ctx fuel item .null)
                    (fun ty v s => call_primitive_type ctx fuel ty v s)
                    xs schema_property_object items array_item_type
              | _ =>
                  if truthy array_item_type then
                    match call_primitive_type ctx fuel array_item_type value items with
                    | .error e => .error e
                    | .ok (r, v2) => .ok (.list [r], v2)
                  else .ok (.list [value], value)

/-- The dispatch idiom primitive_types.get(type, KeyError(type + ...)) of
lines 94, 107 and 186, followed by the call.  The KeyError default argument
is built EAGERLY, so a non str type name raises TypeError at the string
concatenation even when the lookup would hit; a str name outside the table
returns the KeyError object, and CALLING it raises TypeError.  Scalar
formatters leave the dispatched value unmutated. -/
def call_primitive_type (ctx : JSONSchemaSanitizer) (fuel : Nat)
    (ty value spo : JValue) : Except PyExc (JValue × JValue) :=
  match fuel with
  | 0 => .error .outOfFuel
  | fuel + 1 =>
      match ty with
      | .str s =>
          if s == "array" then format_array ctx fuel value spo
          else if s == "boolean" then .ok (format_bool value, value)
          else if s == "integer" then
            match format_int value with
            | .error e => .error e
            | .ok r => .ok (r, value)
          else if s == "null" then .ok (format_null value, value)
          else if s == "number" then
            match format_number value with
            | .error e => .error e
            | .ok r => .ok (r, value)
          else if s == "object" then format_object ctx fuel value spo
          else if s == "string" then
            match format_string ctx value spo with
            | .error e => .error e
            | .ok r => .ok (r, value)
          else .error .typeError
      | _ => .error .typeError

end

/-- Source method sanitize_properties (lines 53..76), the entry point.  The
external jsonschema validator is the Bool valued parameter validate (the
source wraps the call in try/except with a bare except, so the gate is
exactly a pass/fail test); now is the timestamp the source formats from
datetime.now; the returned list models the logging sink, one record
(timestamp, rejected coerced object) per failed validation.  A falsy coerced
object (None or the empty dict) skips the whole gate: no validation, no
record, implicit None return. -/
def sanitize_properties (ctx : JSONSchemaSanitizer)
    (validate : JValue → JValue → Bool) (now : String) (fuel : Nat)
    (dirty_object : JValue) : Except PyExc (JValue × List (String × JValue)) :=
  match format_object ctx fuel dirty_object ctx.schema with
  | .error e => .error e
  | .ok (sanitized_object, _) =>
      if truthy sanitized_object then
        if validate sanitized_object ctx.schema then .ok (sanitized_object, [])
        else .ok (.null, [(now, sanitized_object)])
      else .ok (.null, [])

/-
Helper lemmas shared by the claim theorems.
-/

/-- After del object[k], k has no binding. -/
theorem lookupKey_eraseKey (kvs : List (String × JValue)) (k : String) :
    lookupKey (eraseKey kvs k) k = none := by
  induction kvs with
  | nil => rfl
  | cons p rest ih =>
      obtain ⟨k1, v1⟩ := p
      by_cases h : k1 = k
      · simp only [eraseKey, List.filter, h]
        simp only [bne_self_eq_false]
        exact ih
      · simp [eraseKey, lookupKey, h]

/-- A key outside the key list of a dict has no binding. -/
theorem lookupKey_eq_none_of_not_mem (kvs : List (String × JValue)) (k : String)
    (h : k ∉ kvs.map Prod.fst) : lookupKey kvs k = none := by
  induction kvs with
  | nil => rfl
  | cons p rest ih =>
      obtain ⟨k1, v1⟩ := p
      simp only [List.map_cons, List.mem_cons] at h
      push_neg at h
      simp only [lookupKey, List.find?]
      rw [show (k1 == k) = false from by simpa using fun hc => h.1 hc.symm]
      exact ih h.2

/-- The required loop starting from the empty output stays empty. -/
theorem checkRequired_nil (keys : List JValue) : checkRequired keys [] = [] := by
  induction keys with
  | nil => rfl
  | cons key rest ih =>
      simp only [checkRequired, requiredLookup]
      cases key <;> simp [lookupKey, truthy, ih]

/-- The required loop either keeps the output intact (when every required
key has a truthy binding) or empties it completely. -/
theorem checkRequired_eq_ite (keys : List JValue) (acc : List (String × JValue)) :
    checkRequired keys acc =
      if keys.all (fun key => truthy (requiredLookup acc key)) then acc else [] := by
  induction keys with
  | nil => rfl
  | cons key rest ih =>
      simp only [checkRequired, List.all_cons]
      by_cases h : truthy (requiredLookup acc key)
      · simp [h, ih]
      · simp [h, checkRequired_nil]

/-- The final state of the iterated pairs returned by the property loop has
exactly the keys of the input pairs (the loop replaces values of visited
composite properties but never inserts or removes keys). -/
theorem format_object_loop_keys (schema : JValue)
    (disp : JValue → JValue → JValue → Except PyExc (JValue × JValue))
    (spo : JValue) (rest acc r fin : List (String × JValue))
    (h : format_object_loop schema disp spo rest acc = .ok (r, fin)) :
    fin.map Prod.fst = rest.map Prod.fst := by
  induction rest generalizing acc r fin with
  | nil =>
      simp only [format_object_loop] at h
      cases h
      rfl
  | cons p rest ih =>
      obtain ⟨k, v⟩ := p
      simp only [format_object_loop] at h
      cases hp : dictIndex spo "properties" with
      | error e => simp [hp] at h
      | ok props =>
        simp only [hp] at h
        cases hk : dictIndex props k with
        | error e => simp [hk] at h
        | ok spo0 =>
          simp only [hk] at h
          cases hr : dictGetD spo0 "$ref" .null with
          | error e => simp [hr] at h
          | ok refv =>
            simp only [hr] at h
            cases hs : (if truthy refv then get_reference_value schema refv else .ok spo0 :
                Except PyExc JValue) with
            | error e => simp [hs] at h
            | ok spoK =>
              simp only [hs] at h
              cases he : dictGetD spoK "enum" .null with
              | error e => simp [he] at h
              | ok enumv =>
                simp only [he] at h
                by_cases htr : truthy enumv
                · simp only [htr, if_true] at h
                  cases hc : enum_check v enumv with
                  | error e => simp [hc] at h
                  | ok hit =>
                    simp only [hc] at h
                    cases hit with
                    | true =>
                        simp only [if_true] at h
                        cases hl : format_object_loop schema disp spo rest (acc ++ [(k, v)]) with
                        | error e => simp [hl] at h
                        | ok pr =>
                          obtain ⟨acc2, rest2⟩ := pr
                          simp only [hl, Except.ok.injEq, Prod.mk.injEq] at h
                          obtain ⟨ha, hb⟩ := h
                          subst ha
                          subst hb
                          simpa using ih _ _ _ hl
                    | false =>
                        simp only [Bool.false_eq_true, if_false, Except.ok.injEq,
                          Prod.mk.injEq] at h
                        obtain ⟨ha, hb⟩ := h
                        subst ha
                        subst hb
                        rfl
                · simp only [htr, if_false, Bool.not_eq_true] at h
                  cases hty : dictIndex spoK "type" with
                  | error e => simp [hty] at h
                  | ok ty =>
                    simp only [hty] at h
                    cases hd : disp ty v spoK with
                    | error e => simp [hd] at h
                    | ok pr =>
                      obtain ⟨sv, v2⟩ := pr
                      simp only [hd] at h
                      cases hl : format_object_loop schema disp spo rest
                          (if truthy sv then acc ++ [(k, sv)] else acc) with
                      | error e => simp [hl] at h
                      | ok pr2 =>
                        obtain ⟨acc2, rest2⟩ := pr2
                        simp only [hl] at h
                        injection h with h
                        injection h with h3 h4
                        subst h3
                        subst h4
                        simpa using ih _ _ _ hl

/-
Claim theorems.  Concrete schemas and contexts are named per claim.  The
date_time field of every concrete context is a stub collaborator that is
never reached by the computations below.
-/

/-- Stand in for the external date-time collaborator; never invoked by any
computation in this development. -/
def dtStub : JValue → Except PyExc JValue := fun _ => .error .valueError

/-- Inputs the boolean formatter maps to False: the literal False, the
numbers 0 and 0.0 (Python == identifies them with False), and the strings
whose lowercasing is f or false. -/
def boolFalseInput : JValue → Bool
  | .bool b => b == false
  | .int n => n == 0
  | .float q => decide (q = 0)
  | .str s => strLower s == "f" || strLower s == "false"
  | _ => false

/-- Inputs the boolean formatter maps to True: the literal True, the numbers
1 and 1.0, and the strings whose lowercasing is t or true. -/
def boolTrueInput : JValue → Bool
  | .bool b => b == true
  | .int n => n == 1
  | .float q => decide (q = 1)
  | .str s => strLower s == "t" || strLower s == "true"
  | _ => false

/-- C4 counterexample: the claim says the numbers 0 and 1 map to absent, but
format_bool maps the integer 0 to False and 1 to True, because Python ==
identifies 0 with False and 1 with True; False is not the absent result
None. -/
theorem format_bool_numeric_example :
    format_bool (.int 0) = .bool false ∧
    format_bool (.int 1) = .bool true ∧
    format_bool (.float 0) = .bool false ∧
    (JValue.bool false ≠ JValue.null) :=
  ⟨rfl, rfl, rfl, fun h => nomatch h⟩

/-- C4 (amended): format_bool maps exactly the inputs in
falseSet = (False, 0, 0.0, strings lowercasing to f or false) to False,
exactly those in trueSet = (True, 1, 1.0, strings lowercasing to t or true)
to True, and every other input to None (absent); it never raises, as its
exception free return type shows. -/
theorem format_bool_characterization (v : JValue) :
    format_bool v =
      (if boolFalseInput v then .bool false
       else if boolTrueInput v then .bool true else .null) := by
  cases v <;>
    simp [format_bool, boolFalseInput, boolTrueInput, pyEq, boolInt]

/-- C5 counterexample: the claim says no exception escapes the numeric
formatters, but int(None) raises TypeError, which the source does not catch
(only ValueError is handled); the concrete conversions the claim quotes do
hold. -/
theorem format_int_typeerror_example :
    format_int (.str "42") = .ok (.int 42) ∧
    format_int (.str "4.2") = .ok .null ∧
    format_number (.str "4.2") = .ok (.float (mkRat 21 5)) ∧
    format_int .null = .error .typeError :=
  ⟨rfl, rfl, rfl, rfl⟩

/-- C5 (amended): the integer formatter parses base 10 (42 parses, 4.2 does
not) and the number formatter parses decimals (4.2 gives 21/5); for every
STRING input whose parse fails the ValueError is caught and absent is
returned; but for inputs that are neither strings nor numbers nor booleans
(None, lists) int() and float() raise TypeError, which is not caught and
escapes to the caller. -/
theorem format_int_number_failure_behavior (s : String) (h : pyParseInt s = none) :
    format_int (.str s) = .ok .null ∧
    format_int (.str "42") = .ok (.int 42) ∧
    format_int (.str "4.2") = .ok .null ∧
    format_number (.str "4.2") = .ok (.float (mkRat 21 5)) ∧
    format_int .null = .error .typeError ∧
    format_number .null = .error .typeError ∧
    format_int (.list []) = .error .typeError := by
  refine ⟨?_, rfl, rfl, rfl, rfl, rfl, rfl⟩
  simp [format_int, h]

/-- C5 witness: the amended theorem applied at the unparseable string 4.2
(pyParseInt evaluates to none by rfl). -/
theorem format_int_number_failure_behavior_witness :
    format_int (.str "4.2") = .ok .null ∧ format_int .null = .error .typeError := by
  have h := format_int_number_failure_behavior "4.2" rfl
  exact ⟨h.1, h.2.2.2.2.1⟩

/-- C6: whenever the coerced object is truthy and the external validator
rejects it, sanitize_properties returns None (not an exception: the source
wraps validate in try/except with a bare except), and the log receives
exactly one record carrying the timestamp and the rejected coerced object.
Proved for every sanitizer state, validator, timestamp, fuel and input. -/
theorem sanitize_validation_failure_record (ctx : JSONSchemaSanitizer)
    (validate : JValue → JValue → Bool) (now : String) (fuel : Nat)
    (dirty obj fin : JValue)
    (hobj : format_object ctx fuel dirty ctx.schema = .ok (obj, fin))
    (htr : truthy obj = true)
    (hval : validate obj ctx.schema = false) :
    sanitize_properties ctx validate now fuel dirty = .ok (.null, [(now, obj)]) := by
  simp [sanitize_properties, hobj, htr, hval]

def schemaC6 : JValue := .dict [("properties", .dict
  [("a", .dict [("type", .str "string")])])]

def ctxC6 : JSONSchemaSanitizer := ⟨schemaC6, [], dtStub⟩

/-- C6 witness: a concrete one property object coerces successfully and is
rejected by an always failing validator; exactly one timestamped record is
produced and None is returned. -/
theorem sanitize_validation_failure_record_witness :
    sanitize_properties ctxC6 (fun _ _ => false) "2026-10-12" 9
        (.dict [("a", .str "1")])
      = .ok (.null, [("2026-10-12", .dict [("a", .str "1")])]) :=
  sanitize_validation_failure_record ctxC6 (fun _ _ => false) "2026-10-12" 9
    (.dict [("a", .str "1")]) (.dict [("a", .str "1")]) (.dict [("a", .str "1")])
    rfl rfl rfl

/-- C10: whenever the top level coercion yields a falsy result (None or the
empty dict), sanitize_properties returns None with an EMPTY record list, and
the conclusion holds for EVERY validator function, which shows the validator
is never consulted on this path. -/
theorem sanitize_falsy_skips_validation_gate (ctx : JSONSchemaSanitizer)
    (validate : JValue → JValue → Bool) (now : String) (fuel : Nat)
    (dirty r fin : JValue)
    (hobj : format_object ctx fuel dirty ctx.schema = .ok (r, fin))
    (htr : truthy r = false) :
    sanitize_properties ctx validate now fuel dirty = .ok (.null, []) := by
  simp [sanitize_properties, hobj, htr]

def ctxC10 : JSONSchemaSanitizer := ⟨.dict [], [], dtStub⟩

/-- C10 witness: the empty input coerces to None, and even an always passing
validator is never reflected in the result: no record, None returned. -/
theorem sanitize_falsy_skips_validation_gate_witness :
    sanitize_properties ctxC10 (fun _ _ => true) "2026-10-12" 9 (.dict [])
      = .ok (.null, []) :=
  sanitize_falsy_skips_validation_gate ctxC10 (fun _ _ => true) "2026-10-12" 9
    (.dict []) .null (.dict []) rfl rfl

def refSchemaC7 : JValue := .dict [("definitions", .dict [("Foo", .dict [])])]

/-- C7 counterexample: the claim says a pointer not starting with # fails
with InvalidPointer and a missed segment fails with ReferenceNotFound, but
the resolver silently returns None for a path with no # marker, silently
returns None when the FINAL segment misses, and raises AttributeError (from
None.get) when a non final segment misses; no dedicated error signals
exist. -/
theorem reference_resolver_silent_example :
    get_reference_value (.dict []) (.str "definitions/Foo") = .ok .null ∧
    get_reference_value refSchemaC7 (.str "#/definitions/Bar") = .ok .null ∧
    get_reference_value refSchemaC7 (.str "#/definitions/Bar/x")
      = .error .attributeError :=
  ⟨rfl, rfl, rfl⟩

/-- C7 (amended): for every schema and every path whose first / separated
segment does not contain #, the resolver silently returns None rather than
failing; when the marker is present, a missed final segment also silently
yields None, while a missed non final segment raises AttributeError from
looking up inside None. -/
theorem get_reference_value_failure_modes (schema : JValue) (p : String)
    (h : ((splitChar '/' p.data).headD []).any (fun c => c == '#') = false) :
    get_reference_value schema (.str p) = .ok .null ∧
    get_reference_value refSchemaC7 (.str "#/definitions/Bar") = .ok .null ∧
    get_reference_value refSchemaC7 (.str "#/definitions/Bar/x")
      = .error .attributeError := by
  refine ⟨?_, rfl, rfl⟩
  cases hsp : splitChar '/' p.data with
  | nil => simp [get_reference_value, hsp]
  | cons a t =>
      rw [hsp] at h
      simp only [List.headD_cons] at h
      simp [get_reference_value, hsp, h]

/-- C7 witness: the amended theorem applied at the markerless concrete path
definitions/Foo. -/
theorem get_reference_value_failure_modes_witness :
    get_reference_value (.dict []) (.str "definitions/Foo") = .ok .null :=
  (get_reference_value_failure_modes (.dict []) "definitions/Foo" rfl).1

def schemaC3 : JValue := .dict [("properties", .dict
  [("b", .dict [("type", .str "boolean")])])]

def ctxC3 : JSONSchemaSanitizer := ⟨schemaC3, [], dtStub⟩

/-- C3 counterexample: the claim says every successfully coerced property
appears in the output (including false, 0, empty string, null), but the
source keeps a property only when the coerced value is TRUTHY: here the
boolean coercion of the string false succeeds with False, yet the property
is dropped and the whole object collapses to None. -/
theorem falsy_success_dropped_example :
    format_bool (.str "false") = .bool false ∧
    format_object ctxC3 9 (.dict [("b", .str "false")]) schemaC3
      = .ok (.null, .dict [("b", .str "false")]) :=
  ⟨rfl, rfl⟩

/-- C3 (amended): a dispatched property is kept exactly when its coerced
value is truthy: for a single property object whose property schema has no
ref and no enum, the coercion returns the singleton output when the
dispatched value sv is truthy and absent (None) when sv is falsy (false, 0,
0.0, empty string, None, empty containers); absent and an explicit null
produce the same outcome because the source uses None for both. -/
theorem format_object_single_property_truthiness (ctx : JSONSchemaSanitizer)
    (fuel : Nat) (spo props spoK ty : JValue) (k : String) (v sv v2 : JValue)
    (htype : truthy ((lookupKey [(k, v)] "type").getD .null) = false)
    (hprops : dictIndex spo "properties" = .ok props)
    (hk : dictIndex props k = .ok spoK)
    (href : dictGetD spoK "$ref" .null = .ok .null)
    (henum : dictGetD spoK "enum" .null = .ok .null)
    (hty : dictIndex spoK "type" = .ok ty)
    (hd : call_primitive_type ctx fuel ty v spoK = .ok (sv, v2))
    (hreq : dictGet spo "required" = .ok .null) :
    format_object ctx (fuel + 1) (.dict [(k, v)]) spo
      = .ok ((if truthy sv then .dict [(k, sv)] else .null), .dict [(k, v2)]) := by
  have htn : truthy JValue.null = false := rfl
  by_cases hsv : truthy sv <;>
    simp [format_object, format_object_loop, format_object_finish,
      htype, hprops, hk, href, henum, hty, hd, hreq, hsv, htn]

/-- C3 witness: the amended theorem applied to the boolean property b with
input false, whose successful coercion False is falsy, so the output is
absent. -/
theorem format_object_single_property_truthiness_witness :
    format_object ctxC3 9 (.dict [("b", .str "false")]) schemaC3
      = .ok (.null, .dict [("b", .str "false")]) := by
  have h := format_object_single_property_truthiness ctxC3 8 schemaC3
    (.dict [("b", .dict [("type", .str "boolean")])])
    (.dict [("type", .str "boolean")]) (.str "boolean") "b"
    (.str "false") (.bool false) (.str "false") rfl rfl rfl rfl rfl rfl rfl rfl
  simpa using h

def schemaC2 : JValue := .dict
  [("properties", .dict
    [("a", .dict [("type", .str "string")]),
     ("b", .dict [("type", .str "string")])]),
   ("required", .list [.str "a", .str "b"])]

def ctxC2 : JSONSchemaSanitizer := ⟨schemaC2, [], dtStub⟩

/-- C2 counterexample: on the exact scenario of the claim (required a and b,
input providing only a), the coercion does NOT yield absent (None): it
returns the EMPTY DICT, which is a mapping, merely a falsy one that callers
then treat like absent through truthiness tests. -/
theorem required_missing_yields_empty_dict_example :
    format_object ctxC2 9 (.dict [("a", .str "1")]) schemaC2
      = .ok (.dict [], .dict [("a", .str "1")]) ∧
    (JValue.dict [] ≠ JValue.null) :=
  ⟨rfl, fun h => nomatch h⟩

/-- C2 (amended): when the schema lists required keys and the loop built a
nonempty output, the coercion returns the output intact when EVERY required
key has a TRUTHY binding, and otherwise returns the EMPTY DICT (not None):
presence is tested by truthiness, so a required key bound to a falsy value
(0, false, empty string) counts as missing, while a truthy binding does
not. -/
theorem format_object_required_truthiness_filter (ctx : JSONSchemaSanitizer)
    (fuel : Nat) (kvs acc fin : List (String × JValue)) (spo : JValue)
    (keys : List JValue)
    (htype : truthy ((lookupKey kvs "type").getD .null) = false)
    (hloop : format_object_loop ctx.schema
        (fun ty v s => call_primitive_type ctx fuel ty v s) spo kvs []
      = .ok (acc, fin))
    (hacc : acc ≠ [])
    (hreq : dictGet spo "required" = .ok (.list keys))
    (hkeys : keys ≠ []) :
    format_object ctx (fuel + 1) (.dict kvs) spo
      = .ok ((if keys.all (fun key => truthy (requiredLookup acc key))
              then JValue.dict acc else .dict []), .dict fin) := by
  have hne : acc.isEmpty = false := by
    cases acc with
    | nil => exact absurd rfl hacc
    | cons p rest => rfl
  have hkt : truthy (JValue.list keys) = true := by
    cases keys with
    | nil => exact absurd rfl hkeys
    | cons p rest => rfl
  simp only [format_object, htype, Bool.false_eq_true, if_false, hloop,
    format_object_finish, hne, hreq, hkt, if_true]
  rw [checkRequired_eq_ite]
  simp [htype, apply_ite JValue.dict]

/-- C2 witness: the amended theorem applied to the scenario of the claim;
the required key b has no binding, so the filter empties the output and the
empty dict is returned. -/
theorem format_object_required_truthiness_filter_witness :
    format_object ctxC2 9 (.dict [("a", .str "1")]) schemaC2
      = .ok (.dict [], .dict [("a", .str "1")]) := by
  have h := format_object_required_truthiness_filter ctxC2 8
    [("a", .str "1")] [("a", .str "1")] [("a", .str "1")] schemaC2
    [.str "a", .str "b"] rfl rfl (fun hc => nomatch hc) rfl
    (fun hc => nomatch hc)
  simpa using h

def fooNodeC8 : JValue := .dict [("properties", .dict
  [("type", .dict [("enum", .list [.str "foo"])]),
   ("a", .dict [("type", .str "string")])])]

def schemaC8 : JValue := .dict [("definitions", .dict [("Foo", fooNodeC8)])]

def ctxC8 : JSONSchemaSanitizer := ⟨schemaC8, [(.str "foo", fooNodeC8)], dtStub⟩

/-- C8 counterexample: the registry of the concrete schema maps foo to the
Foo definition; coercing an input carrying type = foo succeeds, the output
gets the discriminant re-attached, but the INPUT comes back without its
type key: the source deletes the discriminant from the caller mapping
itself, not from a working copy, so the input is NOT identical after the
call (its type lookup changes from some foo to none). -/
theorem discriminant_input_mutation_example :
    create_non_primitive_types_store schemaC8 = .ok [(.str "foo", fooNodeC8)] ∧
    format_object ctxC8 9 (.dict [("type", .str "foo"), ("a", .str "1")]) schemaC8
      = .ok (.dict [("a", .str "1"), ("type", .str "foo")], .dict [("a", .str "1")]) ∧
    lookupKey [("type", JValue.str "foo"), ("a", JValue.str "1")] "type"
      = some (.str "foo") ∧
    lookupKey [("a", JValue.str "1")] "type" = none :=
  ⟨rfl, rfl, rfl, rfl⟩

/-- C8 (amended): whenever the input mapping carries a truthy type
discriminant that resolves through the registry to a non None node and the
coercion returns successfully, the final state of the caller input has NO
type binding at all and therefore differs from the original input: the
discriminant is deleted from the input in place and restored only on the
separate output mapping. -/
theorem format_object_deletes_discriminant_from_input (ctx : JSONSchemaSanitizer)
    (fuel : Nat) (kvs : List (String × JValue)) (spo node r fin : JValue)
    (htype : truthy ((lookupKey kvs "type").getD .null) = true)
    (hreg : registryGet ctx.non_primitive_types ((lookupKey kvs "type").getD .null)
      = some node)
    (hnode : isNull node = false)
    (hok : format_object ctx (fuel + 1) (.dict kvs) spo = .ok (r, fin)) :
    ∃ kvs2, fin = .dict kvs2 ∧ lookupKey kvs2 "type" = none ∧ fin ≠ .dict kvs := by
  simp only [format_object, htype, if_true, hreg, hnode, Bool.false_eq_true,
    if_false] at hok
  cases hl : format_object_loop ctx.schema
      (fun ty v s => call_primitive_type ctx fuel ty v s) node
      (eraseKey kvs "type") [] with
  | error e => simp [hl] at hok
  | ok pr =>
      obtain ⟨acc, work2⟩ := pr
      simp only [hl] at hok
      cases hf : format_object_finish ((lookupKey kvs "type").getD .null) node acc with
      | error e => simp [hf] at hok
      | ok rr =>
          simp only [hf, Except.ok.injEq, Prod.mk.injEq] at hok
          obtain ⟨h1, h2⟩ := hok
          have hn : lookupKey work2 "type" = none := by
            apply lookupKey_eq_none_of_not_mem
            rw [format_object_loop_keys _ _ _ _ _ _ _ hl]
            intro hmem
            simp only [eraseKey, List.mem_map, List.mem_filter] at hmem
            obtain ⟨p, ⟨hp1, hp2⟩, hp3⟩ := hmem
            rw [hp3] at hp2
            simp at hp2
          refine ⟨work2, h2.symm, hn, ?_⟩
          intro he
          rw [← h2] at he
          injection he with he2
          rw [he2] at hn
          rw [hn] at htype
          simp [truthy] at htype

/-- C8 witness: the amended theorem applied to the concrete tagged input;
the returned final input has no type binding and differs from the
original. -/
theorem format_object_deletes_discriminant_from_input_witness :
    ∃ kvs2, (JValue.dict [("a", JValue.str "1")]) = .dict kvs2 ∧
      lookupKey kvs2 "type" = none ∧
      (JValue.dict [("a", JValue.str "1")])
        ≠ .dict [("type", .str "foo"), ("a", .str "1")] :=
  format_object_deletes_discriminant_from_input ctxC8 8
    [("type", .str "foo"), ("a", .str "1")] schemaC8 fooNodeC8
    (.dict [("a", .str "1"), ("type", .str "foo")]) (.dict [("a", .str "1")])
    rfl rfl rfl rfl

/-- The per property outcome relation used by the C1 theorem: property p of
the input corresponds to binding q of the built output when the property
schema of p (with no truthy ref) either declares a nonempty enum containing
the value (pass through: q keeps the dirty value) or has no enum and
dispatches to a truthy coerced value without mutating the input value. -/
def PropertyKept (props : JValue)
    (disp : JValue → JValue → JValue → Except PyExc (JValue × JValue))
    (p q : String × JValue) : Prop :=
  p.1 = q.1 ∧ ∃ spoP, dictIndex props p.1 = .ok spoP ∧
    dictGetD spoP "$ref" JValue.null = .ok .null ∧
    ((∃ es, dictGetD spoP "enum" JValue.null = .ok (.list es) ∧ es ≠ [] ∧
        es.any (fun e => pyEq p.2 e) = true ∧ q.2 = p.2) ∨
     (dictGetD spoP "enum" JValue.null = .ok .null ∧
      ∃ ty, dictIndex spoP "type" = .ok ty ∧ disp ty p.2 spoP = .ok (q.2, p.2) ∧
        truthy q.2 = true))

/-- The property loop stops at the first enum violation: the properties
before it contribute their bindings, the violating property and everything
after it are skipped, and the iterated pairs come back unchanged. -/
theorem format_object_loop_enum_break (schema : JValue)
    (disp : JValue → JValue → JValue → Except PyExc (JValue × JValue))
    (spo props : JValue)
    (hprops : dictIndex spo "properties" = .ok props)
    (pre out : List (String × JValue))
    (hpre : List.Forall₂ (PropertyKept props disp) pre out)
    (k : String) (v spoK : JValue) (es : List JValue)
    (post : List (String × JValue))
    (hk : dictIndex props k = .ok spoK)
    (href : dictGetD spoK "$ref" JValue.null = .ok .null)
    (henum : dictGetD spoK "enum" JValue.null = .ok (.list es))
    (hes : es ≠ [])
    (hmem : es.any (fun e => pyEq v e) = false) :
    ∀ acc, format_object_loop schema disp spo (pre ++ (k, v) :: post) acc
      = .ok (acc ++ out, pre ++ (k, v) :: post) := by
  have htn : truthy JValue.null = false := rfl
  have htes : truthy (JValue.list es) = true := by
    cases es with
    | nil => exact absurd rfl hes
    | cons a t => rfl
  induction hpre with
  | nil =>
      intro acc
      simp [format_object_loop, hprops, hk, href, htn, henum, htes,
        enum_check, hmem]
  | @cons p q pre2 out2 hR hF ih =>
      intro acc
      obtain ⟨k1, v1⟩ := p
      obtain ⟨k2, v2⟩ := q
      obtain ⟨hk12, spoP, hip, hrefp, hcase⟩ := hR
      simp only at hk12
      subst hk12
      cases hcase with
      | inl hpass =>
          obtain ⟨es2, he2, hne2, hmem2, hq2⟩ := hpass
          simp only at hq2
          subst hq2
          have htes2 : truthy (JValue.list es2) = true := by
            cases es2 with
            | nil => exact absurd rfl hne2
            | cons a t => rfl
          simp only [List.cons_append, format_object_loop, hprops, hip, hrefp,
            htn, Bool.false_eq_true, if_false, he2, htes2, if_true, enum_check,
            hmem2]
          simp only [List.append_eq]
          rw [ih]
          simp
      | inr hdisp =>
          obtain ⟨henull, ty, hty, hd, htr⟩ := hdisp
          simp only [List.cons_append, format_object_loop, hprops, hip, hrefp,
            htn, Bool.false_eq_true, if_false, henull, hty, hd, htr, if_true]
          simp only [List.append_eq]
          rw [ih]
          simp

def schemaC1 : JValue := .dict [("properties", .dict
  [("a", .dict [("type", .str "string")]),
   ("b", .dict [("enum", .list [.str "x", .str "y"])])])]

def ctxC1 : JSONSchemaSanitizer := ⟨schemaC1, [], dtStub⟩

/-- C1 counterexample: property a coerces successfully, then property b
violates its enum (z is not in x, y); the claim says the whole object
coercion yields absent, but the source merely breaks out of the loop and
returns the PARTIAL output containing a; the result is a nonempty dict, not
None. -/
theorem enum_violation_partial_output_example :
    format_object ctxC1 9 (.dict [("a", .str "1"), ("b", .str "z")]) schemaC1
      = .ok (.dict [("a", .str "1")], .dict [("a", .str "1"), ("b", .str "z")]) ∧
    (JValue.dict [("a", JValue.str "1")] ≠ JValue.null) :=
  ⟨rfl, fun h => nomatch h⟩

/-- C1 (amended): an enum violation stops the property loop at the
violating property: every property processed before it (by enum pass
through or by a truthy successful coercion) is kept, every later property
is skipped, and when at least one property had been kept the coercion
returns that PARTIAL mapping (here with no required keys declared); the
input comes back unchanged on this path.  The whole object becomes absent
only when nothing had been kept yet. -/
theorem format_object_enum_violation_keeps_prefix (ctx : JSONSchemaSanitizer)
    (fuel : Nat) (spo props spoK : JValue) (es : List JValue)
    (pre out post : List (String × JValue)) (k : String) (v : JValue)
    (htype : truthy ((lookupKey (pre ++ (k, v) :: post) "type").getD .null) = false)
    (hprops : dictIndex spo "properties" = .ok props)
    (hpre : List.Forall₂
      (PropertyKept props (fun ty w s => call_primitive_type ctx fuel ty w s))
      pre out)
    (hk : dictIndex props k = .ok spoK)
    (href : dictGetD spoK "$ref" JValue.null = .ok .null)
    (henum : dictGetD spoK "enum" JValue.null = .ok (.list es))
    (hes : es ≠ [])
    (hmem : es.any (fun e => pyEq v e) = false)
    (hout : out ≠ [])
    (hreq : dictGet spo "required" = .ok .null) :
    format_object ctx (fuel + 1) (.dict (pre ++ (k, v) :: post)) spo
      = .ok (.dict out, .dict (pre ++ (k, v) :: post)) := by
  have htn : truthy JValue.null = false := rfl
  have hl := format_object_loop_enum_break ctx.schema
    (fun ty w s => call_primitive_type ctx fuel ty w s) spo props hprops
    pre out hpre k v spoK es post hk href henum hes hmem []
  have hne : out.isEmpty = false := by
    cases out with
    | nil => exact absurd rfl hout
    | cons a t => rfl
  simp only [format_object, htype, Bool.false_eq_true, if_false, hl,
    List.nil_append, format_object_finish, hne, hreq, htn]

/-- C1 witness: the amended theorem applied to the two property scenario;
property a (type string) coerces to the truthy string 1, property b breaks
on its enum, and the partial mapping containing a is returned with the
input unchanged. -/
theorem format_object_enum_violation_keeps_prefix_witness :
    format_object ctxC1 9 (.dict [("a", .str "1"), ("b", .str "z")]) schemaC1
      = .ok (.dict [("a", .str "1")], .dict [("a", .str "1"), ("b", .str "z")]) := by
  have h := format_object_enum_violation_keeps_prefix ctxC1 8 schemaC1
    (.dict [("a", .dict [("type", .str "string")]),
            ("b", .dict [("enum", .list [.str "x", .str "y"])])])
    (.dict [("enum", .list [.str "x", .str "y"])])
    [.str "x", .str "y"]
    [("a", .str "1")] [("a", .str "1")] [] "b" (.str "z")
    rfl rfl
    (List.Forall₂.cons
      ⟨rfl, ⟨.dict [("type", .str "string")], rfl, rfl,
        Or.inr ⟨rfl, ⟨.str "string", rfl, rfl, rfl⟩⟩⟩⟩
      List.Forall₂.nil)
    rfl rfl rfl (fun hc => nomatch hc) rfl (fun hc => nomatch hc) rfl
  simpa using h

def fooNodeC9 : JValue := .dict [("properties", .dict
  [("type", .dict [("enum", .list [.str "foo"])]),
   ("p", .dict [("type", .str "array"),
                ("items", .dict [("type", .str "integer")])])])]

def schemaC9 : JValue := .dict [("definitions", .dict [("Foo", fooNodeC9)])]

def ctxC9 : JSONSchemaSanitizer := ⟨schemaC9, [(.str "foo", fooNodeC9)], dtStub⟩

def inC9 : JValue := .dict [("type", .str "foo"), ("p", .list [.str "4.2"])]

def outC9 : JValue := .dict [("p", .list [.null]), ("type", .str "foo")]

/-- C9 counterexample: sanitize is not idempotent.  The validator argument
is the constant true function, modelled from the spec: the schema validator
is an external conformance checker, and schemaC9 declares no top level
constraints (it only carries definitions), so every instance conforms and
the gate passes everything.  The first run succeeds: the unparseable array
element 4.2 becomes None inside the integer typed array, giving the truthy
output (p = [None], type = foo).  Re-running sanitize on that output
reaches int(None), which raises an uncaught TypeError: the second run does
not return an equal object, it raises. -/
theorem sanitize_not_idempotent_example :
    create_non_primitive_types_store schemaC9 = .ok [(.str "foo", fooNodeC9)] ∧
    sanitize_properties ctxC9 (fun _ _ => true) "t0" 9 inC9 = .ok (outC9, []) ∧
    sanitize_properties ctxC9 (fun _ _ => true) "t0" 9 outC9
      = .error .typeError ∧
    (∀ recs, sanitize_properties ctxC9 (fun _ _ => true) "t0" 9 outC9
      ≠ .ok (outC9, recs)) :=
  ⟨rfl, rfl, rfl, fun _recs h => nomatch h⟩

/-- C9 (amended): sanitize is not idempotent in general (see the
counterexample: a successful output can carry None inside an integer typed
array, and the second run raises an uncaught TypeError instead of returning
an equal object).  What does hold is the pass through property the claim
appeals to, for scalars: an already typed int, float, bool, or plain string
(under a property schema with no format entry) coerces to itself. -/
theorem scalar_formatters_pass_through (ctx : JSONSchemaSanitizer) (n : Int)
    (q : Rat) (b : Bool) (s : String) (spo : JValue)
    (hfmt : dictGetD spo "format" JValue.null = .ok .null) :
    format_int (.int n) = .ok (.int n) ∧
    format_number (.float q) = .ok (.float q) ∧
    format_bool (.bool b) = .bool b ∧
    format_string ctx (.str s) spo = .ok (.str s) := by
  refine ⟨rfl, rfl, ?_, ?_⟩
  · cases b <;> rfl
  · simp [format_string, hfmt, format_default, pyStr]

/-- C9 witness: the pass through theorem applied at concrete typed
scalars. -/
theorem scalar_formatters_pass_through_witness :
    format_int (.int 7) = .ok (.int 7) ∧
    format_string ctxC9 (.str "x") (.dict []) = .ok (.str "x") := by
  have h := scalar_formatters_pass_through ctxC9 7 1 true "x" (.dict []) rfl
  exact ⟨h.1, h.2.2.2⟩

/-- C4 witness: the characterization applied at the integer 0, which maps to
False rather than absent. -/
theorem format_bool_characterization_witness :
    format_bool (.int 0) = .bool false := by
  have h := format_bool_characterization (.int 0)
  simpa using h
